import Mathlib

/-!
# Verification of the ArchiveBox configuration engine (`archivebox/config.py`)

Shallow embedding of the configuration-resolution module:

* `load_config_val`  — single-key resolution (probe loop, coercion, defaults);
* `load_config` / `load_all_config` — base and derived resolution passes;
* `write_config_file` — persistence with backup / validate / rollback;
* the declaration tables `CONFIG_DEFAULTS` and `DERIVED_CONFIG_DEFAULTS`.

Python mappings become association lists (`List (String × _)`); a Python
variable that may be unbound is an outer `Option`; fallible Python code
returns `Except PyErr _`.  Ambient effects (the process environment, the
parsed config file, `load_all_config` run as a validation gate, and the
random secret generator) enter as explicit parameters.
-/

set_option autoImplicit false

namespace ABox

/-- Python runtime values that flow through the config module: `None`,
booleans, integers, strings, lists and dicts (the latter two arise from
static list defaults and from `json.loads`). -/
inductive PyVal where
  | none
  | bool (b : Bool)
  | int (n : Int)
  | str (s : String)
  | list (xs : List PyVal)
  | dict (xs : List (String × PyVal))
  deriving Repr

/-- Errors raised by the embedded fragment of the module. -/
inductive PyErr where
  | unboundLocal
  /-- `ValueError('Invalid configuration option …')` from the coercion branches. -/
  | invalidValue
  /-- `json.JSONDecodeError` raised by `json.loads` on malformed input. -/
  | jsonDecodeError
  /-- failed `assert isinstance(config, dict)` in `load_config_val`. -/
  | assertFailed
  /-- `KeyError` from a computed default reading a missing snapshot key. -/
  | keyError (k : String)
  /-- `IndexError` from `[...][0]` on an empty list (`find_section`). -/
  | indexError
  /-- `TypeError` (e.g. list indexed by a non-integer). -/
  | typeError
  /-- any other exception surfaced by a computed-default closure. -/
  | otherError (msg : String)
  deriving Repr, DecidableEq

/-- The values of the `'type'` field of a key declaration: `bool`, `str`,
`int` and `list` are the only types the module supports. -/
inductive PyType where
  | bool
  | str
  | int
  | list
  deriving Repr, DecidableEq

/-- A resolved snapshot: Python `ConfigDict`, a dict from key name to value. -/
abbrev ConfigDict := List (String × PyVal)

/-- A raw source map (process environment or flattened config file):
a Python dict from string to string. -/
abbrev SMap := List (String × String)

/-- Python `d.get(k)` on a string→string dict. -/
def sget (m : SMap) (k : String) : Option String :=
  (m.find? (fun kv => kv.1 == k)).map (fun kv => kv.2)

/-- Python `d.get(k)` on a `ConfigDict`. -/
def dget (c : ConfigDict) (k : String) : Option PyVal :=
  (c.find? (fun kv => kv.1 == k)).map (fun kv => kv.2)

/-- Python `d[k] = v` on a `ConfigDict`: replace in place, else append. -/
def dinsert (c : ConfigDict) (k : String) (v : PyVal) : ConfigDict :=
  match c with
  | [] => [(k, v)]
  | (k', v') :: rest => if k' == k then (k', v) :: rest else (k', v') :: dinsert rest k v

/-- Python `d[k]` on a `ConfigDict` (raises `KeyError` when absent). -/
def pyGetE (c : ConfigDict) (k : String) : Except PyErr PyVal :=
  match dget c k with
  | some v => Except.ok v
  | Option.none => Except.error (PyErr.keyError k)

/-- Python truthiness of a value bound to the probe variable `val`
(`None` and `''` are falsy). -/
def strTruthy : Option String → Bool
  | some s => !(s == "")
  | Option.none => false

/-- Python truthiness of an optional dict argument (`None` and `{}` are falsy). -/
def mapTruthy : Option SMap → Bool
  | some (_ :: _) => true
  | _ => false

/-- Python truthiness of a `PyVal`. -/
def pyTruthy : PyVal → Bool
  | PyVal.none => false
  | PyVal.bool b => b
  | PyVal.int n => !(n == 0)
  | PyVal.str s => !(s == "")
  | PyVal.list xs => !xs.isEmpty
  | PyVal.dict xs => !xs.isEmpty

/-- Python `str.strip()` whitespace (`' '`, `\t`, `\n`, `\r`, `\x0b`, `\x0c`). -/
def pySpace (c : Char) : Bool :=
  c == ' ' || c == '\t' || c == '\n' || c == '\r' || c == Char.ofNat 11 || c == Char.ofNat 12

/-- Python `s.strip()`. -/
def pyStrip (s : String) : String :=
  String.mk (((s.data.dropWhile pySpace).reverse.dropWhile pySpace).reverse)

/-- Python `s.lower()` (ASCII; the probed values are ASCII). -/
def pyLower (s : String) : String :=
  String.mk (s.data.map Char.toLower)

/-- Python `s.upper()` (ASCII; config keys are ASCII). -/
def pyUpper (s : String) : String :=
  String.mk (s.data.map Char.toUpper)

/-- Python `s.isdigit()` (restricted to ASCII digits, the only ones the
config file and environment carry). -/
def pyIsDigit (s : String) : Bool :=
  !(s == "") && s.data.all Char.isDigit

/-- Python `int(s)` on an all-digit string. -/
def pyParseNat (s : String) : Int :=
  Int.ofNat (s.data.foldl (fun n c => n * 10 + (c.toNat - 48)) 0)

/-- `needle` is a prefix of `hay` (character lists). -/
def beginsWith : List Char → List Char → Bool
  | [], _ => true
  | _ :: _, [] => false
  | a :: as, b :: bs => a == b && beginsWith as bs

/-- `needle` occurs as a contiguous substring of `hay` (character lists). -/
def hasSubstr (needle : List Char) : List Char → Bool
  | [] => needle.isEmpty
  | c :: rest => beginsWith needle (c :: rest) || hasSubstr needle rest

/-- Python `needle in hay` on strings (substring containment). -/
def pyIn (needle hay : String) : Bool :=
  hasSubstr needle.data hay.data

/-! ## `json.loads`

Model of the fragment of Python's `json.loads` exercised by list-typed
config values: JSON strings (with the single-character escapes), integers,
`true` / `false` / `null`, arrays and objects.  Floats, `\uXXXX` escapes and
the non-standard `NaN` / `Infinity` literals are outside the modelled
fragment (no declared key nor any claim touches them). -/

/-- JSON insignificant whitespace. -/
def jsonWs (c : Char) : Bool :=
  c == ' ' || c == '\t' || c == '\n' || c == '\r'

/-- Skip JSON whitespace. -/
def jsonSkip (cs : List Char) : List Char :=
  cs.dropWhile jsonWs

/-- Parse the body of a JSON string (the opening quote already consumed),
returning the decoded characters and the remaining input. -/
def jsonParseStrChars : List Char → Option (List Char × List Char)
  | [] => Option.none
  | c :: rest =>
    if c == '"' then some ([], rest)
    else if c == '\\' then
      match rest with
      | [] => Option.none
      | e :: rest' =>
        let dec : Option Char :=
          if e == '"' then some '"'
          else if e == '\\' then some '\\'
          else if e == '/' then some '/'
          else if e == 'n' then some '\n'
          else if e == 't' then some '\t'
          else if e == 'r' then some '\r'
          else if e == 'b' then some (Char.ofNat 8)
          else if e == 'f' then some (Char.ofNat 12)
          else Option.none
        match dec with
        | some d => (jsonParseStrChars rest').map (fun p => (d :: p.1, p.2))
        | Option.none => Option.none
    else (jsonParseStrChars rest).map (fun p => (c :: p.1, p.2))

/-- Parse a JSON integer (sign + digits; a fraction, exponent or leading
zero is rejected, matching JSON's number grammar restricted to integers). -/
def jsonParseNum (cs : List Char) : Option (Int × List Char) :=
  let neg := cs.head? == some '-'
  let cs1 := if neg then cs.tail else cs
  let digits := cs1.takeWhile Char.isDigit
  let rest := cs1.dropWhile Char.isDigit
  if digits.isEmpty then Option.none
  else if digits.length > 1 && digits.head? == some '0' then Option.none
  else
    let bad := match rest with
      | c :: _ => c == '.' || c == 'e' || c == 'E'
      | [] => false
    if bad then Option.none
    else
      let n : Int := Int.ofNat (digits.foldl (fun n c => n * 10 + (c.toNat - 48)) 0)
      some (if neg then -n else n, rest)

mutual

/-- Parse one JSON value (fuelled recursive-descent). -/
def jsonParseVal : Nat → List Char → Option (PyVal × List Char)
  | 0, _ => Option.none
  | fuel + 1, cs =>
    match jsonSkip cs with
    | [] => Option.none
    | c :: rest =>
      if c == '"' then
        (jsonParseStrChars rest).map (fun p => (PyVal.str (String.mk p.1), p.2))
      else if c == '[' then
        match jsonSkip rest with
        | ']' :: rest' => some (PyVal.list [], rest')
        | cs' =>
          (jsonParseArrItems fuel cs').map (fun p => (PyVal.list p.1, p.2))
      else if c == Char.ofNat 123 then
        match jsonSkip rest with
        | d :: rest' =>
          if d == Char.ofNat 125 then some (PyVal.dict [], rest')
          else (jsonParseObjItems fuel (d :: rest')).map (fun p => (PyVal.dict p.1, p.2))
        | [] => Option.none
      else if beginsWith "true".data (c :: rest) then
        some (PyVal.bool true, (c :: rest).drop 4)
      else if beginsWith "false".data (c :: rest) then
        some (PyVal.bool false, (c :: rest).drop 5)
      else if beginsWith "null".data (c :: rest) then
        some (PyVal.none, (c :: rest).drop 4)
      else
        (jsonParseNum (c :: rest)).map (fun p => (PyVal.int p.1, p.2))

/-- Parse the non-empty items of a JSON array, up to and including `]`. -/
def jsonParseArrItems : Nat → List Char → Option (List PyVal × List Char)
  | 0, _ => Option.none
  | fuel + 1, cs =>
    match jsonParseVal fuel cs with
    | Option.none => Option.none
    | some (v, rest) =>
      match jsonSkip rest with
      | ',' :: rest' =>
        (jsonParseArrItems fuel rest').map (fun p => (v :: p.1, p.2))
      | ']' :: rest' => some ([v], rest')
      | _ => Option.none

/-- Parse the non-empty members of a JSON object, up to and including the
closing brace. -/
def jsonParseObjItems : Nat → List Char → Option (List (String × PyVal) × List Char)
  | 0, _ => Option.none
  | fuel + 1, cs =>
    match jsonSkip cs with
    | '"' :: rest =>
      match jsonParseStrChars rest with
      | Option.none => Option.none
      | some (key, rest1) =>
        match jsonSkip rest1 with
        | ':' :: rest2 =>
          match jsonParseVal fuel rest2 with
          | Option.none => Option.none
          | some (v, rest3) =>
            match jsonSkip rest3 with
            | ',' :: rest4 =>
              (jsonParseObjItems fuel rest4).map
                (fun p => ((String.mk key, v) :: p.1, p.2))
            | d :: rest4 =>
              if d == Char.ofNat 125 then some ([(String.mk key, v)], rest4)
              else Option.none
            | [] => Option.none
        | _ => Option.none
    | _ => Option.none

end

/-- Python `json.loads(s)`: parse one value, require only whitespace after. -/
def json_loads (s : String) : Option PyVal :=
  match jsonParseVal (s.data.length + 1) s.data with
  | some (v, rest) => if (jsonSkip rest).isEmpty then some v else Option.none
  | Option.none => Option.none

/-! ## Key declarations and `load_config_val` -/

/-- The `'default'` field of a key declaration: either a static value or a
callable taking the snapshot resolved so far (which may raise, e.g. a
`KeyError` or a derivation failure). -/
inductive ConfigDefault where
  | static (v : PyVal)
  | fn (f : ConfigDict → Except PyErr PyVal)

/-- One key declaration, an entry of `CONFIG_DEFAULTS` /
`DERIVED_CONFIG_DEFAULTS`: optional `'type'`, `'default'`, optional
`'aliases'`. -/
structure KeyDecl where
  type : Option PyType := Option.none
  default : ConfigDefault
  aliases : List String := []

/-- Shape of every `DERIVED_CONFIG_DEFAULTS` entry: no `'type'`, no
`'aliases'`, a callable `'default'`. -/
def derivedDecl (f : ConfigDict → Except PyErr PyVal) : KeyDecl :=
  { type := Option.none, default := ConfigDefault.fn f, aliases := [] }

/-- One iteration of the probe loop of `load_config_val` for one probed
name: the `if config_file_vars: val = config_file_vars.get(key); if val:
break` half.  Input and output carry the binding state of the local `val`
(`Option.none` = still unbound); the `Bool` is whether `break` fired. -/
def probe_file (config_file_vars : Option SMap) (name : String)
    (val : Option (Option String)) : Option (Option String) × Bool :=
  if mapTruthy config_file_vars then
    let v := sget (config_file_vars.getD []) name
    (some v, strTruthy v)
  else (val, false)

/-- One full iteration of the probe loop for one probed name:
environment first, then config file. -/
def probe_step (env_vars config_file_vars : Option SMap) (name : String)
    (val : Option (Option String)) : Option (Option String) × Bool :=
  if mapTruthy env_vars then
    let v := sget (env_vars.getD []) name
    if strTruthy v then (some v, true)
    else probe_file config_file_vars name (some v)
  else probe_file config_file_vars name val

/-- The probe loop `for key in config_keys_to_check: …` of
`load_config_val`, returning the final binding state of `val`. -/
def probe_val (env_vars config_file_vars : Option SMap) :
    List String → Option (Option String) → Option (Option String)
  | [], val => val
  | name :: rest, val =>
    match probe_step env_vars config_file_vars name val with
    | (val', true) => val'
    | (val', false) => probe_val env_vars config_file_vars rest val'

/-- The default branch of `load_config_val`: `if callable(default): assert
isinstance(config, dict); return default(config)` / `return default`. -/
def evalDefault (default : ConfigDefault) (config : Option ConfigDict) :
    Except PyErr PyVal :=
  match default, config with
  | ConfigDefault.fn f, some c => f c
  | ConfigDefault.fn _, Option.none => Except.error PyErr.assertFailed
  | ConfigDefault.static v, _ => Except.ok v

/-- The typed coercion branches of `load_config_val` (`type is bool` /
`str` / `int` / `list`), applied to the found raw string. -/
def coerce_val (type : PyType) (val : String) : Except PyErr PyVal :=
  match type with
  | PyType.bool =>
    if pyLower val == "true" || pyLower val == "yes" || pyLower val == "1" then
      Except.ok (PyVal.bool true)
    else if pyLower val == "false" || pyLower val == "no" || pyLower val == "0" then
      Except.ok (PyVal.bool false)
    else Except.error PyErr.invalidValue
  | PyType.str =>
    if pyLower val == "true" || pyLower val == "false" || pyLower val == "yes" ||
        pyLower val == "no" || pyLower val == "1" || pyLower val == "0" then
      Except.error PyErr.invalidValue
    else Except.ok (PyVal.str (pyStrip val))
  | PyType.int =>
    if pyIsDigit val then Except.ok (PyVal.int (pyParseNat val))
    else Except.error PyErr.invalidValue
  | PyType.list =>
    match json_loads val with
    | some v => Except.ok v
    | Option.none => Except.error PyErr.jsonDecodeError

/-- `load_config_val` (config.py:351-400).  The probe loop may leave the
local `val` unbound; the guard `if type is None or val is None`
short-circuits, so `val` is only read (raising `UnboundLocalError` if
unbound) when a `'type'` is present.  With no `'type'` or with `val`
bound to `None` the default applies; otherwise the found string is
coerced.  (The final `raise Exception('Config values can only be …')`
branch is unreachable here because `PyType` enumerates exactly the four
supported types.) -/
def load_config_val (key : String) (default : ConfigDefault)
    (type : Option PyType) (aliases : List String)
    (config : Option ConfigDict)
    (env_vars config_file_vars : Option SMap) : Except PyErr PyVal :=
  let config_keys_to_check := key :: aliases
  let val := probe_val env_vars config_file_vars config_keys_to_check Option.none
  match type with
  | Option.none => evalDefault default config
  | some t =>
    match val with
    | Option.none => Except.error PyErr.unboundLocal
    | some Option.none => evalDefault default config
    | some (some s) => coerce_val t s

/-! ## `load_config` and `load_all_config`

In the source, `load_config` replaces a falsy `env_vars` by `os.environ`
and a falsy `config_file_vars` by `load_config_file(out_dir)`; both are
ambient process state, so the embedding takes the two effective source
maps as parameters (the same ones for every key of a pass, as in the
source). -/

/-- The `for key, default in defaults.items()` loop of `load_config`:
resolve each declared key in order, accumulating into the snapshot (a
failure aborts the pass, as the source re-raises after printing). -/
def load_config_go (env_vars config_file_vars : Option SMap) :
    List (String × KeyDecl) → ConfigDict → Except PyErr ConfigDict
  | [], acc => Except.ok acc
  | (key, d) :: rest, acc =>
    match load_config_val key d.default d.type d.aliases (some acc)
        env_vars config_file_vars with
    | Except.ok v => load_config_go env_vars config_file_vars rest (dinsert acc key v)
    | Except.error e => Except.error e

/-- `load_config` (config.py:489-525): start from a copy of the passed
snapshot (empty when falsy) and resolve every declared key in declaration
order. -/
def load_config (defaults : List (String × KeyDecl)) (config : Option ConfigDict)
    (env_vars config_file_vars : Option SMap) : Except PyErr ConfigDict :=
  let extended_config := match config with
    | some c => c
    | Option.none => []
  load_config_go env_vars config_file_vars defaults extended_config

/-- The `for section_name, section_config in CONFIG_DEFAULTS.items()` loop
of `load_all_config`: thread the snapshot through the base sections. -/
def load_base_sections (env_vars config_file_vars : Option SMap) :
    List (String × List (String × KeyDecl)) → ConfigDict → Except PyErr ConfigDict
  | [], acc => Except.ok acc
  | (_, section_config) :: rest, acc =>
    match load_config section_config (some acc) env_vars config_file_vars with
    | Except.ok c => load_base_sections env_vars config_file_vars rest c
    | Except.error e => Except.error e

/-! ## The declaration tables (config.py:46-174 and 268-345)

Shorthand for the dict-literal entries: `bdecl v` is
`{'type': bool, 'default': v}`, `bdeclA v a` the same with
`'aliases': (a,)`, `sdecl` / `sdeclN` / `sdeclA` the `str`-typed forms
(`sdeclN` has `'default': None`), `idecl` the `int`-typed form, `ldecl`
the `list`-typed form with a static list-of-strings default, and
`bdeclF` / `sdeclF` the forms whose default is a callable. -/

def bdecl (v : Bool) : KeyDecl :=
  ⟨some PyType.bool, ConfigDefault.static (PyVal.bool v), []⟩

def bdeclA (v : Bool) (a : String) : KeyDecl :=
  ⟨some PyType.bool, ConfigDefault.static (PyVal.bool v), [a]⟩

def bdeclF (f : ConfigDict → Except PyErr PyVal) : KeyDecl :=
  ⟨some PyType.bool, ConfigDefault.fn f, []⟩

def sdecl (s : String) : KeyDecl :=
  ⟨some PyType.str, ConfigDefault.static (PyVal.str s), []⟩

def sdeclN : KeyDecl :=
  ⟨some PyType.str, ConfigDefault.static PyVal.none, []⟩

def sdeclA (s a : String) : KeyDecl :=
  ⟨some PyType.str, ConfigDefault.static (PyVal.str s), [a]⟩

def sdeclF (f : ConfigDict → Except PyErr PyVal) : KeyDecl :=
  ⟨some PyType.str, ConfigDefault.fn f, []⟩

def idecl (n : Int) : KeyDecl :=
  ⟨some PyType.int, ConfigDefault.static (PyVal.int n), []⟩

def ldecl (xs : List String) : KeyDecl :=
  ⟨some PyType.list, ConfigDefault.static (PyVal.list (xs.map PyVal.str)), []⟩

/-- Models `sys.stdout.isatty()`, the one ambient read inside
`CONFIG_DEFAULTS` (the `IS_TTY` default).  Its value is irrelevant to
every claim; the embedding fixes it to `false`. -/
def sys_stdout_isatty : Bool := false

/-- `'IS_TTY': lambda _: sys.stdout.isatty()`. -/
def is_tty_default (_ : ConfigDict) : Except PyErr PyVal :=
  Except.ok (PyVal.bool sys_stdout_isatty)

/-- `lambda c: c['IS_TTY']` (`USE_COLOR` and `SHOW_PROGRESS`). -/
def is_tty_lookup (c : ConfigDict) : Except PyErr PyVal :=
  pyGetE c "IS_TTY"

/-- `'BIND_ADDR': lambda c: ['127.0.0.1:8000', '0.0.0.0:8000'][c['IN_DOCKER']]`
(Python list indexing: `False` selects 0, `True` selects 1; an
out-of-range int is an `IndexError`, any other index a `TypeError`). -/
def bind_addr_default (c : ConfigDict) : Except PyErr PyVal :=
  match dget c "IN_DOCKER" with
  | some (PyVal.bool b) =>
    Except.ok (PyVal.str (if b then "0.0.0.0:8000" else "127.0.0.1:8000"))
  | some (PyVal.int n) =>
    if n == 0 then Except.ok (PyVal.str "127.0.0.1:8000")
    else if n == 1 then Except.ok (PyVal.str "0.0.0.0:8000")
    else Except.error PyErr.indexError
  | some _ => Except.error PyErr.typeError
  | Option.none => Except.error (PyErr.keyError "IN_DOCKER")

/-- `'CHROME_SANDBOX': lambda c: not c['IN_DOCKER']`. -/
def chrome_sandbox_default (c : ConfigDict) : Except PyErr PyVal :=
  match dget c "IN_DOCKER" with
  | some v => Except.ok (PyVal.bool (!(pyTruthy v)))
  | Option.none => Except.error (PyErr.keyError "IN_DOCKER")

/-- `CONFIG_DEFAULTS` (config.py:46-174): the ordered base sections with
their ordered key declarations. -/
def CONFIG_DEFAULTS : List (String × List (String × KeyDecl)) := [
  ("SHELL_CONFIG", [
    ("IS_TTY",                  bdeclF is_tty_default),
    ("USE_COLOR",               bdeclF is_tty_lookup),
    ("SHOW_PROGRESS",           bdeclF is_tty_lookup),
    ("IN_DOCKER",               bdecl false)]),
  ("GENERAL_CONFIG", [
    ("OUTPUT_DIR",              sdeclN),
    ("CONFIG_FILE",             sdeclN),
    ("ONLY_NEW",                bdecl true),
    ("TIMEOUT",                 idecl 60),
    ("MEDIA_TIMEOUT",           idecl 3600),
    ("OUTPUT_PERMISSIONS",      sdecl "755"),
    ("RESTRICT_FILE_NAMES",     sdecl "windows"),
    ("URL_BLACKLIST",           sdecl "\\.(css|js|otf|ttf|woff|woff2|gstatic\\.com|googleapis\\.com/css)(\\?.*)?$")]),
  ("SERVER_CONFIG", [
    ("SECRET_KEY",              sdeclN),
    ("BIND_ADDR",               sdeclF bind_addr_default),
    ("ALLOWED_HOSTS",           sdecl "*"),
    ("DEBUG",                   bdecl false),
    ("PUBLIC_INDEX",            bdecl true),
    ("PUBLIC_SNAPSHOTS",        bdecl true),
    ("PUBLIC_ADD_VIEW",         bdecl false),
    ("FOOTER_INFO",             sdecl "Content is hosted for personal archiving purposes only.  Contact server owner for any takedown requests."),
    ("ACTIVE_THEME",            sdecl "default")]),
  ("ARCHIVE_METHOD_TOGGLES", [
    ("SAVE_TITLE",              bdeclA true "FETCH_TITLE"),
    ("SAVE_FAVICON",            bdeclA true "FETCH_FAVICON"),
    ("SAVE_WGET",               bdeclA true "FETCH_WGET"),
    ("SAVE_WGET_REQUISITES",    bdeclA true "FETCH_WGET_REQUISITES"),
    ("SAVE_SINGLEFILE",         bdeclA true "FETCH_SINGLEFILE"),
    ("SAVE_READABILITY",        bdeclA true "FETCH_READABILITY"),
    ("SAVE_MERCURY",            bdeclA true "FETCH_MERCURY"),
    ("SAVE_PDF",                bdeclA true "FETCH_PDF"),
    ("SAVE_SCREENSHOT",         bdeclA true "FETCH_SCREENSHOT"),
    ("SAVE_DOM",                bdeclA true "FETCH_DOM"),
    ("SAVE_HEADERS",            bdeclA true "FETCH_HEADERS"),
    ("SAVE_WARC",               bdeclA true "FETCH_WARC"),
    ("SAVE_GIT",                bdeclA true "FETCH_GIT"),
    ("SAVE_MEDIA",              bdeclA true "FETCH_MEDIA"),
    ("SAVE_ARCHIVE_DOT_ORG",    bdeclA true "SUBMIT_ARCHIVE_DOT_ORG")]),
  ("ARCHIVE_METHOD_OPTIONS", [
    ("RESOLUTION",              sdeclA "1440,2000" "SCREENSHOT_RESOLUTION"),
    ("GIT_DOMAINS",             sdecl "github.com,bitbucket.org,gitlab.com"),
    ("CHECK_SSL_VALIDITY",      bdecl true),
    ("CURL_USER_AGENT",         sdecl "ArchiveBox/{VERSION} (+https://github.com/pirate/ArchiveBox/) curl/{CURL_VERSION}"),
    ("WGET_USER_AGENT",         sdecl "ArchiveBox/{VERSION} (+https://github.com/pirate/ArchiveBox/) wget/{WGET_VERSION}"),
    ("CHROME_USER_AGENT",       sdecl "Mozilla/5.0 (Windows NT 10.0; Win64; x64) AppleWebKit/537.36 (KHTML, like Gecko) Chrome/73.0.3683.75 Safari/537.36"),
    ("COOKIES_FILE",            sdeclN),
    ("CHROME_USER_DATA_DIR",    sdeclN),
    ("CHROME_HEADLESS",         bdecl true),
    ("CHROME_SANDBOX",          bdeclF chrome_sandbox_default),
    ("YOUTUBEDL_ARGS",          ldecl ["--write-description", "--write-info-json",
                                       "--write-annotations", "--write-thumbnail",
                                       "--no-call-home", "--user-agent", "--all-subs",
                                       "--extract-audio", "--keep-video", "--ignore-errors",
                                       "--geo-bypass", "--audio-format", "mp3",
                                       "--audio-quality", "320K", "--embed-thumbnail",
                                       "--add-metadata"]),
    ("WGET_ARGS",               ldecl ["--no-verbose", "--adjust-extension",
                                       "--convert-links", "--force-directories",
                                       "--backup-converted", "--span-hosts", "--no-parent",
                                       "-e", "robots=off"]),
    ("CURL_ARGS",               ldecl ["--silent", "--location", "--compressed"]),
    ("GIT_ARGS",                ldecl ["--recursive"])]),
  ("SEARCH_BACKEND_CONFIG", [
    ("USE_INDEXING_BACKEND",    bdecl true),
    ("USE_SEARCHING_BACKEND",   bdecl true),
    ("SEARCH_BACKEND_ENGINE",   sdecl "sonic"),
    ("SEARCH_BACKEND_HOST_NAME", sdecl "localhost"),
    ("SEARCH_BACKEND_PORT",     idecl 1491),
    ("SEARCH_BACKEND_PASSWORD", sdecl "SecretPassword"),
    ("SONIC_COLLECTION",        sdecl "archivebox"),
    ("SONIC_BUCKET",            sdecl "snapshots")]),
  ("DEPENDENCY_CONFIG", [
    ("USE_CURL",                bdecl true),
    ("USE_WGET",                bdecl true),
    ("USE_SINGLEFILE",          bdecl true),
    ("USE_READABILITY",         bdecl true),
    ("USE_MERCURY",             bdecl true),
    ("USE_GIT",                 bdecl true),
    ("USE_CHROME",              bdecl true),
    ("USE_NODE",                bdecl true),
    ("USE_YOUTUBEDL",           bdecl true),
    ("CURL_BINARY",             sdecl "curl"),
    ("GIT_BINARY",              sdecl "git"),
    ("WGET_BINARY",             sdecl "wget"),
    ("SINGLEFILE_BINARY",       sdecl "single-file"),
    ("READABILITY_BINARY",      sdecl "readability-extractor"),
    ("MERCURY_BINARY",          sdecl "mercury-parser"),
    ("YOUTUBEDL_BINARY",        sdecl "youtube-dl"),
    ("CHROME_BINARY",           sdeclN)])]

/-- The keys of `DERIVED_CONFIG_DEFAULTS` (config.py:268-345), in
declaration order.  Every entry of that dict carries no `'type'` and no
`'aliases'`, and its `'default'` is a lambda over the snapshot so far. -/
def DERIVED_CONFIG_KEYS : List String := [
  "TERM_WIDTH", "USER", "ANSI",
  "PACKAGE_DIR", "TEMPLATES_DIR",
  "OUTPUT_DIR", "ARCHIVE_DIR", "SOURCES_DIR", "LOGS_DIR", "CONFIG_FILE",
  "COOKIES_FILE", "CHROME_USER_DATA_DIR", "URL_BLACKLIST_PTN",
  "ARCHIVEBOX_BINARY", "VERSION", "GIT_SHA",
  "PYTHON_BINARY", "PYTHON_ENCODING", "PYTHON_VERSION",
  "DJANGO_BINARY", "DJANGO_VERSION",
  "USE_CURL", "CURL_VERSION", "CURL_USER_AGENT", "CURL_ARGS",
  "SAVE_FAVICON", "SAVE_ARCHIVE_DOT_ORG",
  "USE_WGET", "WGET_VERSION", "WGET_AUTO_COMPRESSION", "WGET_USER_AGENT",
  "SAVE_WGET", "SAVE_WARC", "WGET_ARGS",
  "USE_SINGLEFILE", "SINGLEFILE_VERSION",
  "USE_READABILITY", "READABILITY_VERSION",
  "USE_MERCURY", "MERCURY_VERSION",
  "USE_GIT", "GIT_VERSION", "SAVE_GIT",
  "USE_YOUTUBEDL", "YOUTUBEDL_VERSION", "SAVE_MEDIA", "YOUTUBEDL_ARGS",
  "USE_CHROME", "CHROME_BINARY", "CHROME_VERSION", "USE_NODE",
  "SAVE_PDF", "SAVE_SCREENSHOT", "SAVE_DOM", "SAVE_SINGLEFILE",
  "SAVE_READABILITY", "SAVE_MERCURY",
  "DEPENDENCIES", "CODE_LOCATIONS", "EXTERNAL_LOCATIONS", "DATA_LOCATIONS",
  "CHROME_OPTIONS"]

/-- `DERIVED_CONFIG_DEFAULTS` (config.py:268-345).  The declaration shape
is embedded exactly (declaration order, no `'type'`, no `'aliases'`,
callable `'default'`); the lambda bodies read the live system (terminal
size, version files, binary probing via subprocesses), so they enter as
the parameter `fns`, which is all that the resolution pipeline sees of
them. -/
def DERIVED_CONFIG_DEFAULTS (fns : String → ConfigDict → Except PyErr PyVal) :
    List (String × KeyDecl) :=
  DERIVED_CONFIG_KEYS.map (fun k => (k, derivedDecl (fns k)))

/-- `load_all_config` (config.py:821-826): fold the base sections starting
from `{}`, then run the derived pass over the accumulated snapshot. -/
def load_all_config (fns : String → ConfigDict → Except PyErr PyVal)
    (env_vars config_file_vars : Option SMap) : Except PyErr ConfigDict :=
  match load_base_sections env_vars config_file_vars CONFIG_DEFAULTS [] with
  | Except.ok c =>
    load_config (DERIVED_CONFIG_DEFAULTS fns) (some c) env_vars config_file_vars
  | Except.error e => Except.error e

/-! ## `write_config_file` (config.py:424-485)

The `ConfigParser` state is a `Sections` value: the ordered sections, each
an ordered string→string option map.  `parseIni` / `serializeSections`
model the fragment of `configparser` the write path exercises: `[NAME]`
headers, `KEY = VALUE` lines, `#` / `;` comment lines and blank lines
(interpolation, continuation lines, duplicate sections and options outside
a section are outside the modelled fragment).  The on-disk state is an
`FS`: the contents of `ArchiveBox.conf` and of its `.bak` side-car, each
`Option String` (`Option.none` = the file does not exist). -/

/-- `ConfigParser` contents: ordered sections of ordered `KEY=VALUE` maps. -/
abbrev Sections := List (String × SMap)

def CONFIG_FILENAME : String := "ArchiveBox.conf"

/-- `CONFIG_HEADER` (config.py:253-265). -/
def CONFIG_HEADER : String :=
  "# This is the config file for your ArchiveBox collection.\n#\n# You can add options here manually in INI format, or automatically by running:\n#    archivebox config --set KEY=VALUE\n# \n# If you modify this file manually, make sure to update your archive after by running:\n#    archivebox init\n#\n# A list of all possible config with documentation and examples can be found here:\n#    https://github.com/pirate/ArchiveBox/wiki/Configuration\n\n"

/-- Python `d[k] = v` on a string→string dict: replace in place, else append. -/
def sinsert (m : SMap) (k v : String) : SMap :=
  match m with
  | [] => [(k, v)]
  | (k', v') :: rest => if k' == k then (k', v) :: rest else (k', v') :: sinsert rest k v

/-- Look up a section by name (Python `config_file[section]` /
`section in config_file`). -/
def secFind (secs : Sections) (name : String) : Option SMap :=
  (secs.find? (fun s => s.1 == name)).map (fun s => s.2)

/-- Look up one option: `config_file[name][key]` as an `Option`. -/
def sectionGet (secs : Sections) (name key : String) : Option String :=
  (secFind secs name).bind (fun opts => sget opts key)

/-- Set one option inside the (unique) section named `name`, leaving other
sections untouched. -/
def setSectionOption (secs : Sections) (name key v : String) : Sections :=
  match secs with
  | [] => []
  | (n, opts) :: rest =>
    if n == name then (n, sinsert opts key v) :: rest
    else (n, opts) :: setSectionOption rest name key v

/-- Replace the contents of the (unique) section named `name`. -/
def replaceSection (secs : Sections) (name : String) (opts : SMap) : Sections :=
  match secs with
  | [] => []
  | (n, o) :: rest =>
    if n == name then (n, opts) :: rest
    else (n, o) :: replaceSection rest name opts

/-- Python `config_file[section] = dict`: overwrite the section in place
when present, append it otherwise. -/
def setSection (secs : Sections) (name : String) (opts : SMap) : Sections :=
  if secs.any (fun s => s.1 == name) then replaceSection secs name opts
  else secs ++ [(name, opts)]

/-- Add an empty section if absent (a `[NAME]` header during parsing). -/
def addSection (secs : Sections) (name : String) : Sections :=
  if secs.any (fun s => s.1 == name) then secs else secs ++ [(name, [])]

/-- Split a line at its first `=` into key and value parts. -/
def splitAtEq (s : String) : Option (String × String) :=
  let before := s.data.takeWhile (fun c => !(c == '='))
  match s.data.dropWhile (fun c => !(c == '=')) with
  | _ :: rest => some (String.mk before, String.mk rest)
  | [] => Option.none

/-- Split a string into its lines at `'\n'`. -/
def splitLinesAux (acc : List Char) : List Char → List String
  | [] => [String.mk acc.reverse]
  | c :: rest =>
    if c == '\n' then String.mk acc.reverse :: splitLinesAux [] rest
    else splitLinesAux (c :: acc) rest

/-- Split a string into its lines at `'\n'`. -/
def splitLines (s : String) : List String :=
  splitLinesAux [] s.data

/-- One line of `ConfigParser.read`: state is (sections so far, current
section name). -/
def parseIniLine (st : Sections × Option String) (line : String) :
    Sections × Option String :=
  let stripped := pyStrip line
  match stripped.data with
  | [] => st
  | c :: rest =>
    if c == '#' || c == ';' then st
    else if c == '[' && rest.any (fun d => d == ']') then
      let name := String.mk (rest.takeWhile (fun d => !(d == ']')))
      (addSection st.1 name, some name)
    else
      match splitAtEq stripped, st.2 with
      | some (k, v), some cur => (setSectionOption st.1 cur (pyStrip k) (pyStrip v), st.2)
      | _, _ => st

/-- `ConfigParser.read` on a file's contents (`optionxform = str`, so keys
keep their case). -/
def parseIni (s : String) : Sections :=
  ((splitLines s).foldl parseIniLine ([], Option.none)).1

/-- `ConfigParser.write`: `[NAME]` header, `key = value` lines, then a
blank line, per section. -/
def serializeSections (secs : Sections) : String :=
  String.join (secs.map (fun sec =>
    "[" ++ sec.1 ++ "]\n" ++
    String.join (sec.2.map (fun kv => kv.1 ++ " = " ++ kv.2 ++ "\n")) ++ "\n"))

/-- `find_section` (config.py:442): the `[name for name, opts in
CONFIG_DEFAULTS.items() if key in opts][0]` lookup; `[0]` of the empty
list raises `IndexError`. -/
def find_section (key : String) : Except PyErr String :=
  match (CONFIG_DEFAULTS.filter
      (fun sec => sec.2.any (fun kd => kd.1 == key))).map (fun sec => sec.1) with
  | [] => Except.error PyErr.indexError
  | s :: _ => Except.ok s

/-- The `for key, val in config.items()` loop of `write_config_file`
(config.py:445-451): upsert each assignment under its declared section. -/
def applyAssignments (config_file : Sections) :
    List (String × String) → Except PyErr Sections
  | [] => Except.ok config_file
  | (key, v) :: rest =>
    match find_section key with
    | Except.error e => Except.error e
    | Except.ok sec =>
      let existing_config := (secFind config_file sec).getD []
      applyAssignments (setSection config_file sec (sinsert existing_config key v)) rest

/-- The literal `'not a valid secret'` checked by substring against the
existing `SECRET_KEY`. -/
def SECRET_KEY_PLACEHOLDER : String := "not a valid secret"

/-- The `chars` alphabet passed to `get_random_string(50, chars)`. -/
def SECRET_KEY_CHARS : String := "abcdefghijklmnopqrstuvwxyz0123456789-_+!."

/-- The `SECRET_KEY` block of `write_config_file` (config.py:453-465):
when the key is absent, empty, or contains the placeholder text, store the
freshly generated secret in `SERVER_CONFIG`, creating the section if
needed. -/
def ensureSecret (config_file : Sections) (random_secret_key : String) : Sections :=
  let existing_secret_key : Option String :=
    sectionGet config_file "SERVER_CONFIG" "SECRET_KEY"
  let needNew : Bool :=
    match existing_secret_key with
    | Option.none => true
    | some s => s == "" || pyIn SECRET_KEY_PLACEHOLDER s
  if needNew then
    match secFind config_file "SERVER_CONFIG" with
    | some _ => setSectionOption config_file "SERVER_CONFIG" "SECRET_KEY" random_secret_key
    | Option.none => config_file ++ [("SERVER_CONFIG", [("SECRET_KEY", random_secret_key)])]
  else config_file

/-- On-disk state at `out_dir`: the config file and its `.bak` side-car. -/
structure FS where
  config_file : Option String
  bak_file : Option String
  deriving Repr, DecidableEq

/-- `write_config_file` (config.py:424-485).  Parameters standing for
ambient effects: `validate` is the `load_all_config()` call used as the
post-write validation gate (a function of the just-written file contents —
its other inputs, environment and derived-default effects, are absorbed
into the closure); `random_secret_key` is the `get_random_string(50,
chars)` draw.  Control flow, faithful to the source: create the file with
`CONFIG_HEADER` when absent; parse it; copy its contents to the `.bak`
file; upsert the assignments (an undeclared key raises an uncaught
`IndexError` here); ensure the `SECRET_KEY`; persist; re-validate.  On
validation success the function returns, **inside the `try`**, the
resolved values of the requested (uppercased) keys — the `.bak` removal
after the `try/except` is never reached.  On validation failure the
`except:` block overwrites the file with the `.bak` contents, the `.bak`
file is then removed, and `{}` is returned. -/
def write_config_file (config : List (String × String)) (fs : FS)
    (validate : String → Except PyErr ConfigDict) (random_secret_key : String) :
    FS × Except PyErr (List (String × PyVal)) :=
  let contents0 := fs.config_file.getD CONFIG_HEADER
  let parsed := parseIni contents0
  let fs2 : FS := { config_file := some contents0, bak_file := some contents0 }
  match applyAssignments parsed config with
  | Except.error e => (fs2, Except.error e)
  | Except.ok secs1 =>
    let secs2 := ensureSecret secs1 random_secret_key
    let newContents := serializeSections secs2
    let fs3 : FS := { config_file := some newContents, bak_file := some contents0 }
    match validate newContents with
    | Except.ok CONFIG =>
      (fs3, Except.ok (config.map
        (fun kv => (pyUpper kv.1, (dget CONFIG (pyUpper kv.1)).getD PyVal.none))))
    | Except.error _ =>
      let restored := fs3.bak_file.getD ""
      ({ config_file := some restored, bak_file := Option.none }, Except.ok [])

/-! ## Helper lemmas -/

theorem mapTruthy_of_sget {m : SMap} {k v : String} (h : sget m k = some v) :
    mapTruthy (some m) = true := by
  cases m with
  | nil => simp [sget] at h
  | cons x xs => rfl

theorem strTruthy_some {s : String} (h : ¬(s = "")) : strTruthy (some s) = true := by
  simp [strTruthy, h]

theorem probe_step_env_hit {env : SMap} {a E : String} (file : Option SMap)
    (val : Option (Option String)) (h : sget env a = some E) (hE : ¬(E = "")) :
    probe_step (some env) file a val = (some (some E), true) := by
  cases env with
  | nil => simp [sget] at h
  | cons x xs => simp [probe_step, mapTruthy, h, strTruthy_some hE]

theorem probe_step_file_hit (env : Option SMap) {file : SMap} {a F : String}
    (val : Option (Option String))
    (henv : strTruthy (sget (env.getD []) a) = false)
    (h : sget file a = some F) (hF : ¬(F = "")) :
    probe_step env (some file) a val = (some (some F), true) := by
  have hfile : ∀ w, probe_file (some file) a w = (some (some F), true) := by
    intro w
    cases file with
    | nil => simp [sget] at h
    | cons x xs => simp [probe_file, mapTruthy, h, strTruthy_some hF]
  cases env with
  | none => simpa [probe_step, mapTruthy] using hfile val
  | some m =>
    cases m with
    | nil => simpa [probe_step, mapTruthy] using hfile val
    | cons x xs =>
      have henv' : strTruthy (sget (x :: xs) a) = false := by simpa using henv
      simp [probe_step, mapTruthy, henv', hfile]

theorem probe_step_quiet (env file : Option SMap) (n : String)
    (val : Option (Option String))
    (h1 : strTruthy (sget (env.getD []) n) = false)
    (h2 : strTruthy (sget (file.getD []) n) = false) :
    ∃ v', probe_step env file n val = (v', false) := by
  have hfile : ∀ w, ∃ v', probe_file file n w = (v', false) := by
    intro w
    cases file with
    | none => exact ⟨w, rfl⟩
    | some m =>
      cases m with
      | nil => exact ⟨w, rfl⟩
      | cons x xs =>
        have h2' : strTruthy (sget (x :: xs) n) = false := by simpa using h2
        exact ⟨some (sget (x :: xs) n), by simp [probe_file, mapTruthy, h2']⟩
  cases env with
  | none =>
    obtain ⟨v', hv'⟩ := hfile val
    exact ⟨v', by simpa [probe_step, mapTruthy] using hv'⟩
  | some m =>
    cases m with
    | nil =>
      obtain ⟨v', hv'⟩ := hfile val
      exact ⟨v', by simpa [probe_step, mapTruthy] using hv'⟩
    | cons x xs =>
      have h1' : strTruthy (sget (x :: xs) n) = false := by simpa using h1
      obtain ⟨v', hv'⟩ := hfile (some (sget (x :: xs) n))
      exact ⟨v', by simp [probe_step, mapTruthy, h1', hv']⟩

theorem probe_step_absent (env file : Option SMap) (n : String)
    (val : Option (Option String))
    (ht : (mapTruthy env || mapTruthy file) = true)
    (h1 : sget (env.getD []) n = Option.none)
    (h2 : sget (file.getD []) n = Option.none) :
    probe_step env file n val = (some Option.none, false) := by
  have hfile : mapTruthy file = true → ∀ w,
      probe_file file n w = (some Option.none, false) := by
    intro hf w
    cases file with
    | none => simp [mapTruthy] at hf
    | some m =>
      cases m with
      | nil => simp [mapTruthy] at hf
      | cons x xs =>
        have h2' : sget (x :: xs) n = Option.none := by simpa using h2
        simp [probe_file, mapTruthy, h2', strTruthy]
  cases env with
  | none =>
    have hf : mapTruthy file = true := by simpa [mapTruthy] using ht
    simpa [probe_step, mapTruthy] using hfile hf val
  | some m =>
    cases m with
    | nil =>
      have hf : mapTruthy file = true := by simpa [mapTruthy] using ht
      simpa [probe_step, mapTruthy] using hfile hf val
    | cons x xs =>
      have h1' : sget (x :: xs) n = Option.none := by simpa using h1
      cases hf : mapTruthy file with
      | true => simp [probe_step, mapTruthy, h1', strTruthy, hfile hf]
      | false =>
        have hpf : ∀ w, probe_file file n w = (w, false) := by
          intro w
          cases file with
          | none => rfl
          | some m' =>
            cases m' with
            | nil => rfl
            | cons y ys => simp [mapTruthy] at hf
        simp [probe_step, mapTruthy, h1', strTruthy, hpf]

theorem probe_step_falsy (env file : Option SMap) (n : String)
    (val : Option (Option String))
    (henv : mapTruthy env = false) (hfile : mapTruthy file = false) :
    probe_step env file n val = (val, false) := by
  have hpf : probe_file file n val = (val, false) := by
    cases file with
    | none => rfl
    | some m =>
      cases m with
      | nil => rfl
      | cons x xs => simp [mapTruthy] at hfile
  cases env with
  | none => simpa [probe_step, mapTruthy] using hpf
  | some m =>
    cases m with
    | nil => simpa [probe_step, mapTruthy] using hpf
    | cons x xs => simp [mapTruthy] at henv

theorem probe_val_cons_break {env file : Option SMap} {n : String}
    {val v' : Option (Option String)} (rest : List String)
    (h : probe_step env file n val = (v', true)) :
    probe_val env file (n :: rest) val = v' := by
  have e : probe_val env file (n :: rest) val =
      (match probe_step env file n val with
       | (val', true) => val'
       | (val', false) => probe_val env file rest val') := rfl
  rw [e, h]

theorem probe_val_cons_continue {env file : Option SMap} {n : String}
    {val v' : Option (Option String)} (rest : List String)
    (h : probe_step env file n val = (v', false)) :
    probe_val env file (n :: rest) val = probe_val env file rest v' := by
  have e : probe_val env file (n :: rest) val =
      (match probe_step env file n val with
       | (val', true) => val'
       | (val', false) => probe_val env file rest val') := rfl
  rw [e, h]

theorem probe_val_falsy (env file : Option SMap)
    (henv : mapTruthy env = false) (hfile : mapTruthy file = false) :
    ∀ (names : List String) (val : Option (Option String)),
      probe_val env file names val = val := by
  intro names
  induction names with
  | nil => intro val; rfl
  | cons n rest ih =>
    intro val
    rw [probe_val_cons_continue rest (probe_step_falsy env file n val henv hfile)]
    exact ih val

theorem probe_val_absent (env file : Option SMap)
    (ht : (mapTruthy env || mapTruthy file) = true) :
    ∀ (names : List String) (val : Option (Option String)), names ≠ [] →
      (∀ n ∈ names, sget (env.getD []) n = Option.none ∧
        sget (file.getD []) n = Option.none) →
      probe_val env file names val = some Option.none := by
  intro names
  induction names with
  | nil => intro val h _; exact absurd rfl h
  | cons n rest ih =>
    intro val _ habs
    obtain ⟨h1, h2⟩ := habs n (List.mem_cons_self n rest)
    rw [probe_val_cons_continue rest (probe_step_absent env file n val ht h1 h2)]
    cases rest with
    | nil => rfl
    | cons m ms =>
      exact ih (some Option.none) (by simp)
        (fun x hx => habs x (List.mem_cons_of_mem n hx))

theorem probe_val_quiet_prefix (env file : Option SMap) :
    ∀ (pre : List String),
      (∀ n ∈ pre, strTruthy (sget (env.getD []) n) = false ∧
        strTruthy (sget (file.getD []) n) = false) →
      ∀ (names : List String) (val : Option (Option String)),
        ∃ val', probe_val env file (pre ++ names) val = probe_val env file names val' := by
  intro pre
  induction pre with
  | nil => intro _ names val; exact ⟨val, rfl⟩
  | cons n rest ih =>
    intro hq names val
    obtain ⟨h1, h2⟩ := hq n (List.mem_cons_self n rest)
    obtain ⟨v', hv'⟩ := probe_step_quiet env file n val h1 h2
    rw [List.cons_append, probe_val_cons_continue (rest ++ names) hv']
    exact ih (fun x hx => hq x (List.mem_cons_of_mem n hx)) names v'

theorem load_config_val_untyped (key : String) (d : ConfigDefault)
    (aliases : List String) (cfg : Option ConfigDict) (env file : Option SMap) :
    load_config_val key d Option.none aliases cfg env file = evalDefault d cfg := rfl

theorem load_config_val_found {key : String} {aliases : List String} {t : PyType}
    {d : ConfigDefault} {cfg : Option ConfigDict} {env file : Option SMap} {s : String}
    (h : probe_val env file (key :: aliases) Option.none = some (some s)) :
    load_config_val key d (some t) aliases cfg env file = coerce_val t s := by
  simp only [load_config_val, h]

theorem load_config_val_val_none {key : String} {aliases : List String} {t : PyType}
    {d : ConfigDefault} {cfg : Option ConfigDict} {env file : Option SMap}
    (h : probe_val env file (key :: aliases) Option.none = some Option.none) :
    load_config_val key d (some t) aliases cfg env file = evalDefault d cfg := by
  simp only [load_config_val, h]

theorem load_config_val_unbound {key : String} {aliases : List String} {t : PyType}
    {d : ConfigDefault} {cfg : Option ConfigDict} {env file : Option SMap}
    (h : probe_val env file (key :: aliases) Option.none = Option.none) :
    load_config_val key d (some t) aliases cfg env file =
      Except.error PyErr.unboundLocal := by
  simp only [load_config_val, h]

theorem dget_dinsert (c : ConfigDict) (k : String) (v : PyVal) :
    dget (dinsert c k v) k = some v := by
  induction c with
  | nil => simp [dget, dinsert, List.find?]
  | cons kv rest ih =>
    rcases kv with ⟨k', v'⟩
    by_cases h : k' == k
    · simp [dinsert, h, dget, List.find?]
    · simp only [dinsert, h, Bool.false_eq_true, if_false]
      simpa [dget, List.find?, h] using ih

theorem load_config_go_append (env file : Option SMap)
    (xs ys : List (String × KeyDecl)) (acc : ConfigDict) :
    load_config_go env file (xs ++ ys) acc =
      (match load_config_go env file xs acc with
       | Except.ok c => load_config_go env file ys c
       | Except.error e => Except.error e) := by
  induction xs generalizing acc with
  | nil => simp [load_config_go]
  | cons x rest ih =>
    rcases x with ⟨k, d⟩
    simp only [List.cons_append, load_config_go]
    cases load_config_val k d.default d.type d.aliases (some acc) env file with
    | ok v => exact ih (dinsert acc k v)
    | error e => rfl

theorem applyAssignments_append (xs ys : List (String × String)) :
    ∀ secs : Sections,
      applyAssignments secs (xs ++ ys) =
        (match applyAssignments secs xs with
         | Except.ok s => applyAssignments s ys
         | Except.error e => Except.error e) := by
  induction xs with
  | nil => intro secs; simp [applyAssignments]
  | cons x rest ih =>
    intro secs
    rcases x with ⟨k, v⟩
    simp only [List.cons_append, applyAssignments]
    cases find_section k with
    | ok sec => exact ih _
    | error e => rfl

theorem beginsWith_mem {needle hay : List Char} (h : beginsWith needle hay = true) :
    ∀ c ∈ needle, c ∈ hay := by
  induction needle generalizing hay with
  | nil => intro c hc; simp at hc
  | cons a as ih =>
    cases hay with
    | nil => simp [beginsWith] at h
    | cons b bs =>
      simp only [beginsWith, Bool.and_eq_true, beq_iff_eq] at h
      intro c hc
      rcases List.mem_cons.mp hc with rfl | hc'
      · exact h.1 ▸ List.mem_cons_self b bs
      · exact List.mem_cons_of_mem b (ih h.2 c hc')

theorem hasSubstr_mem {needle hay : List Char} (h : hasSubstr needle hay = true) :
    ∀ c ∈ needle, c ∈ hay := by
  induction hay with
  | nil =>
    intro c hc
    cases needle with
    | nil => simp at hc
    | cons a as => simp [hasSubstr, List.isEmpty] at h
  | cons b bs ih =>
    simp only [hasSubstr, Bool.or_eq_true] at h
    intro c hc
    rcases h with h | h
    · exact beginsWith_mem h c hc
    · exact List.mem_cons_of_mem b (ih h c hc)

theorem sget_sinsert (m : SMap) (k v : String) : sget (sinsert m k v) k = some v := by
  induction m with
  | nil => simp [sget, sinsert, List.find?]
  | cons kv rest ih =>
    rcases kv with ⟨k', v'⟩
    by_cases h : k' == k
    · simp [sinsert, h, sget, List.find?]
    · simp only [sinsert, h, Bool.false_eq_true, if_false]
      simpa [sget, List.find?, h] using ih

theorem sectionGet_setSectionOption {secs : Sections} {name : String} {opts : SMap}
    (h : secFind secs name = some opts) (k v : String) :
    sectionGet (setSectionOption secs name k v) name k = some v := by
  induction secs with
  | nil => simp [secFind] at h
  | cons sec rest ih =>
    rcases sec with ⟨n, o⟩
    by_cases hn : n == name
    · simp [setSectionOption, hn, sectionGet, secFind, List.find?, sget_sinsert]
    · simp only [setSectionOption, hn, Bool.false_eq_true, if_false]
      simp only [secFind, List.find?, hn] at h
      have := ih (by simpa [secFind] using h)
      simpa [sectionGet, secFind, List.find?, hn] using this

theorem secFind_append_left_none {secs : Sections} {name : String}
    (h : secFind secs name = Option.none) (ys : Sections) :
    secFind (secs ++ ys) name = secFind ys name := by
  induction secs with
  | nil => rfl
  | cons sec rest ih =>
    rcases sec with ⟨n, o⟩
    cases hn : (n == name) with
    | true => simp [secFind, List.find?, hn] at h
    | false =>
      have h' : secFind rest name = Option.none := by
        simpa [secFind, List.find?, hn] using h
      have e : secFind (((n, o) :: rest) ++ ys) name = secFind (rest ++ ys) name := by
        simp [secFind, List.find?, hn]
      rw [e]
      exact ih h'

theorem find_section_undeclared {k : String}
    (h : CONFIG_DEFAULTS.all (fun sec => sec.2.all (fun kd => !(kd.1 == k))) = true) :
    find_section k = Except.error PyErr.indexError := by
  unfold find_section
  have hfilter : CONFIG_DEFAULTS.filter
      (fun sec => sec.2.any (fun kd => kd.1 == k)) = [] := by
    rw [List.filter_eq_nil_iff]
    intro sec hsec
    have hall := (List.all_eq_true.mp h) sec hsec
    simp only [List.any_eq_true, Bool.not_eq_true']
    rintro ⟨kd, hkd, hk⟩
    have hne := (List.all_eq_true.mp hall) kd hkd
    simp only [Bool.not_eq_true'] at hne
    exact absurd hk (by simp [hne])
  rw [hfilter]
  rfl

/-! ## Claims C3, C4, C7, C8, C10 — single-key resolution -/

/-- C3 counterexample: the claim's third scenario fails on the code.  For
the `int`-typed key `TIMEOUT` (default 60), an environment that binds
`TIMEOUT` to the empty string — so that neither source holds a
*non-empty* value under any probed name — does not resolve to the default
60: the probe loop leaves `val` bound to `''` (not `None`), the empty
string reaches the `int` coercion, and the call raises `ValueError`. -/
theorem C3_counterexample :
    load_config_val "TIMEOUT" (ConfigDefault.static (PyVal.int 60)) (some PyType.int) []
        (some []) (some [("TIMEOUT", "")]) Option.none
      = Except.error PyErr.invalidValue ∧
    ¬(Except.error PyErr.invalidValue
        = (Except.ok (PyVal.int 60) : Except PyErr PyVal)) :=
  ⟨rfl, fun h => nomatch h⟩

/-- C3 (amended): for a typed key, (1) when the environment holds no
truthy value under the canonical name and the config file holds a
non-empty `F` there, resolution yields the coercion of `F`; (2) when the
environment holds a non-empty `E` under the canonical name, resolution
yields the coercion of `E` whatever the file holds; (3) when at least one
source mapping is non-empty and *no probed name is present at all* in
either source, resolution takes the default branch (the static default,
or the default function applied to the snapshot so far).  The original
claim's unconditional "neither source holds a non-empty value ⟹ default"
is corrected: a probed name bound to the empty string, or two empty
source mappings, do not reach the default branch (see the
counterexample and C8). -/
theorem C3_precedence_amended :
    (∀ (key : String) (t : PyType) (d : ConfigDefault) (aliases : List String)
       (cfg : Option ConfigDict) (env : Option SMap) (file : SMap) (F : String),
       strTruthy (sget (env.getD []) key) = false →
       sget file key = some F → ¬(F = "") →
       load_config_val key d (some t) aliases cfg env (some file) = coerce_val t F) ∧
    (∀ (key : String) (t : PyType) (d : ConfigDefault) (aliases : List String)
       (cfg : Option ConfigDict) (env : SMap) (file : Option SMap) (E : String),
       sget env key = some E → ¬(E = "") →
       load_config_val key d (some t) aliases cfg (some env) file = coerce_val t E) ∧
    (∀ (key : String) (t : PyType) (d : ConfigDefault) (aliases : List String)
       (cfg : Option ConfigDict) (env file : Option SMap),
       (mapTruthy env || mapTruthy file) = true →
       (∀ n ∈ key :: aliases, sget (env.getD []) n = Option.none ∧
         sget (file.getD []) n = Option.none) →
       load_config_val key d (some t) aliases cfg env file = evalDefault d cfg) := by
  refine ⟨?_, ?_, ?_⟩
  · intro key t d aliases cfg env file F henv hF hFne
    exact load_config_val_found
      (probe_val_cons_break aliases (probe_step_file_hit env Option.none henv hF hFne))
  · intro key t d aliases cfg env file E hE hEne
    exact load_config_val_found
      (probe_val_cons_break aliases (probe_step_env_hit file Option.none hE hEne))
  · intro key t d aliases cfg env file ht habs
    exact load_config_val_val_none
      (probe_val_absent env file ht (key :: aliases) Option.none (by simp) habs)

/-- C3 witness: `TIMEOUT` (int, default 60) resolves to 30 from the file
alone, to 5 when the environment also says 5, and to the default 60 when
a non-empty environment contains no probed name. -/
theorem C3_witness :
    load_config_val "TIMEOUT" (ConfigDefault.static (PyVal.int 60)) (some PyType.int) []
        (some []) Option.none (some [("TIMEOUT", "30")]) = Except.ok (PyVal.int 30) ∧
    load_config_val "TIMEOUT" (ConfigDefault.static (PyVal.int 60)) (some PyType.int) []
        (some []) (some [("TIMEOUT", "5")]) (some [("TIMEOUT", "30")])
      = Except.ok (PyVal.int 5) ∧
    load_config_val "TIMEOUT" (ConfigDefault.static (PyVal.int 60)) (some PyType.int) []
        (some []) (some [("OTHER", "x")]) Option.none = Except.ok (PyVal.int 60) :=
  ⟨(C3_precedence_amended.1 "TIMEOUT" PyType.int (ConfigDefault.static (PyVal.int 60)) []
      (some []) Option.none [("TIMEOUT", "30")] "30" rfl rfl (by decide)).trans rfl,
   (C3_precedence_amended.2.1 "TIMEOUT" PyType.int (ConfigDefault.static (PyVal.int 60)) []
      (some []) [("TIMEOUT", "5")] (some [("TIMEOUT", "30")]) "5" rfl (by decide)).trans rfl,
   (C3_precedence_amended.2.2 "TIMEOUT" PyType.int (ConfigDefault.static (PyVal.int 60)) []
      (some []) (some [("OTHER", "x")]) Option.none rfl (by decide)).trans rfl⟩

/-- C4 counterexample: for `SAVE_WGET` (alias `FETCH_WGET`), with the
environment holding `FETCH_WGET=False` and the config file holding
`SAVE_WGET=True`, the code returns `True` (the file value under the
canonical name, probed first), not the environment value `False` the
claim requires. -/
theorem C4_counterexample :
    load_config_val "SAVE_WGET" (ConfigDefault.static (PyVal.bool true)) (some PyType.bool)
        ["FETCH_WGET"] (some []) (some [("FETCH_WGET", "False")])
        (some [("SAVE_WGET", "True")])
      = Except.ok (PyVal.bool true) ∧
    ¬((Except.ok (PyVal.bool true) : Except PyErr PyVal) = Except.ok (PyVal.bool false)) :=
  ⟨rfl, fun h => nomatch h⟩

/-- C4 (amended): the probe loop checks the environment before the file
*per probed name*, canonical name first.  Consequently an environment
value under an alias wins only when no earlier-probed name carries a
truthy value in either source: if the probed-name list splits as
`pre ++ a :: rest`, every name in `pre` is truthy in neither source, and
the environment holds a non-empty `E` under `a`, resolution yields the
coercion of `E` (in particular beating a file value under `a` itself).
The original claim — environment wins under *any* probed name against
the file under the canonical name — is corrected (see the
counterexample). -/
theorem C4_amended (key : String) (aliases pre rest : List String) (a : String)
    (t : PyType) (d : ConfigDefault) (cfg : Option ConfigDict) (env : SMap)
    (file : Option SMap) (E : String)
    (hsplit : key :: aliases = pre ++ a :: rest)
    (hquiet : ∀ n ∈ pre, strTruthy (sget env n) = false ∧
      strTruthy (sget (file.getD []) n) = false)
    (hhit : sget env a = some E) (hE : ¬(E = "")) :
    load_config_val key d (some t) aliases cfg (some env) file = coerce_val t E := by
  have hq : ∀ n ∈ pre, strTruthy (sget ((some env : Option SMap).getD []) n) = false ∧
      strTruthy (sget (file.getD []) n) = false := by simpa using hquiet
  obtain ⟨val', hval'⟩ :=
    probe_val_quiet_prefix (some env) file pre hq (a :: rest) Option.none
  have hbreak : probe_val (some env) file (a :: rest) val' = some (some E) :=
    probe_val_cons_break rest (probe_step_env_hit file val' hhit hE)
  apply load_config_val_found
  rw [hsplit, hval', hbreak]

/-- C4 witness: with the file sources empty, `FETCH_WGET=False` set only
in the environment resolves the aliased key `SAVE_WGET` to `False`. -/
theorem C4_amended_witness :
    load_config_val "SAVE_WGET" (ConfigDefault.static (PyVal.bool true)) (some PyType.bool)
        ["FETCH_WGET"] (some []) (some [("FETCH_WGET", "False")]) Option.none
      = Except.ok (PyVal.bool false) :=
  (C4_amended "SAVE_WGET" ["FETCH_WGET"] ["SAVE_WGET"] [] "FETCH_WGET" PyType.bool
    (ConfigDefault.static (PyVal.bool true)) (some []) [("FETCH_WGET", "False")]
    Option.none "False" rfl (by decide) rfl (by decide)).trans rfl

/-- C7 counterexample: for a `list`-typed key, the raw string `"42"` —
valid JSON but not an array of strings — does not raise: `json.loads`
succeeds and the integer 42 is returned as the coerced value. -/
theorem C7_counterexample :
    load_config_val "WGET_ARGS" (ConfigDefault.static (PyVal.list [])) (some PyType.list) []
        (some []) (some [("WGET_ARGS", "42")]) Option.none = Except.ok (PyVal.int 42) ∧
    (load_config_val "WGET_ARGS" (ConfigDefault.static (PyVal.list [])) (some PyType.list) []
        (some []) (some [("WGET_ARGS", "42")]) Option.none).isOk = true :=
  ⟨rfl, rfl⟩

/-- C7 (amended): for a `list`-typed key whose probe finds the non-empty
raw string `s`, the result is exactly `json.loads(s)`: whatever value
valid JSON parses to is returned unchecked (no array-of-strings
validation), and malformed JSON raises the JSON decode error (a
`ValueError` subclass), not a dedicated config error. -/
theorem C7_amended (key : String) (d : ConfigDefault) (aliases : List String)
    (cfg : Option ConfigDict) (s : String) (hs : ¬(s = "")) :
    load_config_val key d (some PyType.list) aliases cfg (some [(key, s)]) Option.none =
      (match json_loads s with
       | some v => Except.ok v
       | Option.none => Except.error PyErr.jsonDecodeError) := by
  have hget : sget [(key, s)] key = some s := by simp [sget, List.find?]
  exact load_config_val_found
    (probe_val_cons_break aliases (probe_step_env_hit Option.none Option.none hget hs))

/-- C7 witness: a JSON array of strings parses to the list, and the
malformed `[a,b]` raises the decode error. -/
theorem C7_amended_witness :
    load_config_val "WGET_ARGS" (ConfigDefault.static (PyVal.list [])) (some PyType.list) []
        (some []) (some [("WGET_ARGS", "[\"a\",\"b\"]")]) Option.none
      = Except.ok (PyVal.list [PyVal.str "a", PyVal.str "b"]) ∧
    load_config_val "WGET_ARGS" (ConfigDefault.static (PyVal.list [])) (some PyType.list) []
        (some []) (some [("WGET_ARGS", "[a,b]")]) Option.none
      = Except.error PyErr.jsonDecodeError :=
  ⟨(C7_amended "WGET_ARGS" (ConfigDefault.static (PyVal.list [])) [] (some [])
      "[\"a\",\"b\"]" (by decide)).trans rfl,
   (C7_amended "WGET_ARGS" (ConfigDefault.static (PyVal.list [])) [] (some [])
      "[a,b]" (by decide)).trans rfl⟩

/-- C8 (confirmed): calling `load_config_val` with a typed key and both
source arguments falsy (absent, or empty mappings) leaves the probe
loop's local `val` unassigned, and reading it in the
`type is None or val is None` guard raises `UnboundLocalError` instead of
falling back to the declared default. -/
theorem C8_unbound_local (key : String) (default : ConfigDefault) (t : PyType)
    (aliases : List String) (config : Option ConfigDict)
    (env_vars config_file_vars : Option SMap)
    (henv : mapTruthy env_vars = false) (hfile : mapTruthy config_file_vars = false) :
    load_config_val key default (some t) aliases config env_vars config_file_vars =
      Except.error PyErr.unboundLocal :=
  load_config_val_unbound
    (probe_val_falsy env_vars config_file_vars henv hfile (key :: aliases) Option.none)

/-- C8 witness: `TIMEOUT` with an absent environment and an empty config
file mapping raises the unbound-local error. -/
theorem C8_witness :
    load_config_val "TIMEOUT" (ConfigDefault.static (PyVal.int 60)) (some PyType.int) []
        (some []) Option.none (some []) = Except.error PyErr.unboundLocal :=
  C8_unbound_local "TIMEOUT" (ConfigDefault.static (PyVal.int 60)) PyType.int [] (some [])
    Option.none (some []) rfl rfl

/-- C10 (confirmed): every `DERIVED_CONFIG_DEFAULTS` entry has no
`'type'`, so `load_config_val` short-circuits to the default branch and
evaluates the declared function on the snapshot so far; the result is
independent of the environment and config file sources — any raw value
present under the key's name there is ignored. -/
theorem C10_derived_ignores_sources (fns : String → ConfigDict → Except PyErr PyVal)
    (k : String) (d : KeyDecl) (hmem : (k, d) ∈ DERIVED_CONFIG_DEFAULTS fns)
    (cfg : ConfigDict) (env_vars config_file_vars : Option SMap) :
    load_config_val k d.default d.type d.aliases (some cfg) env_vars config_file_vars =
      fns k cfg := by
  obtain ⟨a, ha, hkd⟩ := List.mem_map.mp hmem
  cases hkd
  rfl

/-- A stand-in for a derived default's closure, used by the C10 witness. -/
def c10fns : String → ConfigDict → Except PyErr PyVal :=
  fun _ c => Except.ok (PyVal.int (Int.ofNat c.length))

/-- C10 witness: `TERM_WIDTH` with a raw value `999` in the environment
still evaluates its default function on the one-entry snapshot. -/
theorem C10_witness :
    load_config_val "TERM_WIDTH" (derivedDecl (c10fns "TERM_WIDTH")).default
        (derivedDecl (c10fns "TERM_WIDTH")).type (derivedDecl (c10fns "TERM_WIDTH")).aliases
        (some [("USE_COLOR", PyVal.bool true)]) (some [("TERM_WIDTH", "999")]) Option.none
      = Except.ok (PyVal.int 1) :=
  (C10_derived_ignores_sources c10fns "TERM_WIDTH" (derivedDecl (c10fns "TERM_WIDTH"))
    (List.mem_map.mpr ⟨"TERM_WIDTH", by decide, rfl⟩)
    [("USE_COLOR", PyVal.bool true)] (some [("TERM_WIDTH", "999")]) Option.none).trans rfl

/-! ## Claim C5 — derived pass ordering -/

/-- C5 (confirmed): the derived pass walks the declarations in order,
threading the accumulated snapshot.  With any prefix `pre` resolving the
start snapshot `c0` to `cfg1`, a derived key `k1` (function `f1`,
yielding `v1`) followed by a derived key `k2` (function `f2`): `f2` is
applied to exactly `dinsert cfg1 k1 v1` — the snapshot holding `k1`'s
freshly derived value — and that snapshot maps `k1` to `v1`, never to
`c0`'s prior (base) value for `k1`.  The result of the whole pass
continues from `f2`'s output.  This is the final `load_config(DERIVED_CONFIG_DEFAULTS,
CONFIG)` call of `load_all_config`, for any split of the derived table. -/
theorem C5_derived_order (env_vars config_file_vars : Option SMap)
    (pre post : List (String × KeyDecl)) (k1 k2 : String)
    (f1 f2 : ConfigDict → Except PyErr PyVal) (c0 cfg1 : ConfigDict) (v1 : PyVal)
    (hpre : load_config pre (some c0) env_vars config_file_vars = Except.ok cfg1)
    (hf1 : f1 cfg1 = Except.ok v1) :
    (load_config (pre ++ (k1, derivedDecl f1) :: (k2, derivedDecl f2) :: post)
        (some c0) env_vars config_file_vars =
      (match f2 (dinsert cfg1 k1 v1) with
       | Except.ok v2 =>
         load_config_go env_vars config_file_vars post (dinsert (dinsert cfg1 k1 v1) k2 v2)
       | Except.error e => Except.error e)) ∧
    dget (dinsert cfg1 k1 v1) k1 = some v1 := by
  have step : ∀ (k : String) (f : ConfigDict → Except PyErr PyVal)
      (ds : List (String × KeyDecl)) (acc : ConfigDict),
      load_config_go env_vars config_file_vars ((k, derivedDecl f) :: ds) acc =
        (match f acc with
         | Except.ok v => load_config_go env_vars config_file_vars ds (dinsert acc k v)
         | Except.error e => Except.error e) := fun _ _ _ _ => rfl
  constructor
  · have hgo : load_config_go env_vars config_file_vars pre c0 = Except.ok cfg1 := hpre
    show load_config_go env_vars config_file_vars
        (pre ++ (k1, derivedDecl f1) :: (k2, derivedDecl f2) :: post) c0 = _
    rw [load_config_go_append, hgo]
    show load_config_go env_vars config_file_vars
        ((k1, derivedDecl f1) :: (k2, derivedDecl f2) :: post) cfg1 = _
    rw [step k1 f1 ((k2, derivedDecl f2) :: post) cfg1, hf1]
    show load_config_go env_vars config_file_vars
        ((k2, derivedDecl f2) :: post) (dinsert cfg1 k1 v1) = _
    rw [step k2 f2 post (dinsert cfg1 k1 v1)]
  · exact dget_dinsert cfg1 k1 v1

/-- Stand-ins for two adjacent derived defaults, used by the C5 witness:
the first yields `True`, the second reads the first's key. -/
def c5f1 : ConfigDict → Except PyErr PyVal := fun _ => Except.ok (PyVal.bool true)

/-- See `c5f1`. -/
def c5f2 : ConfigDict → Except PyErr PyVal :=
  fun c => Except.ok ((dget c "USE_WGET").getD PyVal.none)

/-- C5 witness: starting from a base snapshot where `USE_WGET` is `False`,
the derived `USE_WGET` yields `True` and the later derived `SAVE_WGET`,
reading `USE_WGET`, observes `True` — the derived value, not the base
one. -/
theorem C5_witness :
    load_config [("USE_WGET", derivedDecl c5f1), ("SAVE_WGET", derivedDecl c5f2)]
        (some [("USE_WGET", PyVal.bool false)]) Option.none Option.none
      = Except.ok [("USE_WGET", PyVal.bool true), ("SAVE_WGET", PyVal.bool true)] ∧
    dget (dinsert [("USE_WGET", PyVal.bool false)] "USE_WGET" (PyVal.bool true)) "USE_WGET"
      = some (PyVal.bool true) := by
  have h := C5_derived_order Option.none Option.none [] [] "USE_WGET" "SAVE_WGET" c5f1 c5f2
    [("USE_WGET", PyVal.bool false)] [("USE_WGET", PyVal.bool false)] (PyVal.bool true)
    rfl rfl
  exact ⟨h.1.trans rfl, h.2⟩

/-! ## Claims C1, C2, C6, C9 — the write path -/

/-- C1 (confirmed): writing assignments to a pre-existing config file
(contents `c0`), when the post-write re-resolution fails with any error,
ends with the config file holding exactly the pre-write bytes `c0`
(restored from the backup), the `.bak` file removed, and an empty mapping
returned. -/
theorem C1_rollback (fs : FS) (c0 : String) (assignments : List (String × String))
    (validate : String → Except PyErr ConfigDict) (random_secret_key : String)
    (secs1 : Sections) (e : PyErr)
    (hpre : fs.config_file = some c0)
    (happly : applyAssignments (parseIni c0) assignments = Except.ok secs1)
    (hval : validate (serializeSections (ensureSecret secs1 random_secret_key))
      = Except.error e) :
    write_config_file assignments fs validate random_secret_key =
      ({ config_file := some c0, bak_file := Option.none }, Except.ok []) := by
  simp only [write_config_file, hpre, Option.getD_some, happly, hval]

/-- C1 witness: a failing validation after writing `TIMEOUT=99` to an
(empty) pre-existing file restores the empty file, deletes the backup and
returns `{}`. -/
theorem C1_rollback_witness :
    write_config_file [("TIMEOUT", "99")] { config_file := some "", bak_file := Option.none }
        (fun _ => Except.error PyErr.invalidValue) "secret"
      = ({ config_file := some "", bak_file := Option.none }, Except.ok []) :=
  C1_rollback { config_file := some "", bak_file := Option.none } "" [("TIMEOUT", "99")]
    (fun _ => Except.error PyErr.invalidValue) "secret"
    [("GENERAL_CONFIG", [("TIMEOUT", "99")])] PyErr.invalidValue rfl rfl rfl

/-- C2 counterexample: a successful write (`TIMEOUT=99`, validation
succeeds) returns the resolved values, but the `.bak` side-car file is
*not* removed — it still holds the pre-write contents when the call
returns, because the success path returns from inside the `try`, before
the `os.remove` that follows the `try/except`. -/
theorem C2_counterexample :
    (write_config_file [("TIMEOUT", "99")] { config_file := some "", bak_file := Option.none }
        (fun _ => Except.ok [("TIMEOUT", PyVal.int 99)]) "secret").1.bak_file = some "" ∧
    ¬((some "" : Option String) = Option.none) ∧
    (write_config_file [("TIMEOUT", "99")] { config_file := some "", bak_file := Option.none }
        (fun _ => Except.ok [("TIMEOUT", PyVal.int 99)]) "secret").2
      = Except.ok [("TIMEOUT", PyVal.int 99)] :=
  ⟨rfl, fun h => Option.noConfusion h, rfl⟩

/-- C2 (amended): on a successful post-write re-resolution the call
returns the mapping of exactly the requested keys (uppercased), each to
`CONFIG.get` of that key (its newly resolved value, `None` when absent)
— but the `.bak` backup file is *not* removed: it remains on disk holding
the pre-write contents, because the success `return` sits inside the
`try` block and the backup-removal code after the `try/except` only runs
on the failure path. -/
theorem C2_success_amended (fs : FS) (c0 : String) (assignments : List (String × String))
    (validate : String → Except PyErr ConfigDict) (random_secret_key : String)
    (secs1 : Sections) (CONFIG : ConfigDict)
    (hpre : fs.config_file = some c0)
    (happly : applyAssignments (parseIni c0) assignments = Except.ok secs1)
    (hval : validate (serializeSections (ensureSecret secs1 random_secret_key))
      = Except.ok CONFIG) :
    write_config_file assignments fs validate random_secret_key =
      ({ config_file := some (serializeSections (ensureSecret secs1 random_secret_key)),
         bak_file := some c0 },
       Except.ok (assignments.map
         (fun kv => (pyUpper kv.1, (dget CONFIG (pyUpper kv.1)).getD PyVal.none)))) := by
  simp only [write_config_file, hpre, Option.getD_some, happly, hval]

/-- C2 witness: the successful `TIMEOUT=99` write returns exactly
`{TIMEOUT: 99}` and leaves both the new file and the backup on disk. -/
theorem C2_success_amended_witness :
    write_config_file [("TIMEOUT", "99")] { config_file := some "", bak_file := Option.none }
        (fun _ => Except.ok [("TIMEOUT", PyVal.int 99)]) "secret"
      = ({ config_file :=
             some "[GENERAL_CONFIG]\nTIMEOUT = 99\n\n[SERVER_CONFIG]\nSECRET_KEY = secret\n\n",
           bak_file := some "" },
         Except.ok [("TIMEOUT", PyVal.int 99)]) :=
  (C2_success_amended { config_file := some "", bak_file := Option.none } "" [("TIMEOUT", "99")]
    (fun _ => Except.ok [("TIMEOUT", PyVal.int 99)]) "secret"
    [("GENERAL_CONFIG", [("TIMEOUT", "99")])] [("TIMEOUT", PyVal.int 99)] rfl rfl rfl).trans rfl

/-- C9 (confirmed): an assignment whose key is declared in no section of
`CONFIG_DEFAULTS` (an unknown or derived-only key) makes `find_section`
raise an uncaught `IndexError` after the backup was already written: the
call fails with that unstructured error, the `.bak` file (holding the
pre-write contents) is left on disk, no rollback or cleanup runs, and the
config file itself still holds its pre-write contents. -/
theorem C9_unknown_key (fs : FS) (c0 : String) (pre : List (String × String))
    (k v : String) (rest : List (String × String))
    (validate : String → Except PyErr ConfigDict) (random_secret_key : String)
    (secs1 : Sections)
    (hpre : fs.config_file = some c0)
    (hok : applyAssignments (parseIni c0) pre = Except.ok secs1)
    (hundeclared : CONFIG_DEFAULTS.all
      (fun sec => sec.2.all (fun kd => !(kd.1 == k))) = true) :
    write_config_file (pre ++ (k, v) :: rest) fs validate random_secret_key =
      ({ config_file := some c0, bak_file := some c0 }, Except.error PyErr.indexError) := by
  have hbad : applyAssignments (parseIni c0) (pre ++ (k, v) :: rest)
      = Except.error PyErr.indexError := by
    rw [applyAssignments_append, hok]
    simp only [applyAssignments, find_section_undeclared hundeclared]
  simp only [write_config_file, hpre, Option.getD_some, hbad]

/-- C9 witness: writing to the derived-only key `TERM_WIDTH` fails with
the `IndexError`, leaving the backup on disk and the file untouched. -/
theorem C9_unknown_key_witness :
    write_config_file [("TERM_WIDTH", "120")]
        { config_file := some "", bak_file := Option.none }
        (fun _ => Except.ok []) "secret"
      = ({ config_file := some "", bak_file := some "" }, Except.error PyErr.indexError) :=
  C9_unknown_key { config_file := some "", bak_file := Option.none } "" [] "TERM_WIDTH" "120"
    [] (fun _ => Except.ok []) "secret" [] rfl rfl (by decide)

/-- C6 (confirmed): after the assignment-merge step, the secret-key block
guarantees that the section state persisted by the write holds a
`SECRET_KEY` in `SERVER_CONFIG` that is non-empty and free of the
placeholder text: either the pre-existing secret already was (the branch
condition), or the freshly drawn 50-character secret is injected — and a
string over the generator's alphabet can never contain the placeholder
(the alphabet has no space).  When validation succeeds, the file on disk
after the call is exactly the serialization of that section state. -/
theorem C6_secret_key (fs : FS) (assignments : List (String × String))
    (random_secret_key : String) (secs1 : Sections)
    (happly : applyAssignments (parseIni (fs.config_file.getD CONFIG_HEADER)) assignments
      = Except.ok secs1)
    (hlen : random_secret_key.length = 50)
    (hchars : ∀ c ∈ random_secret_key.data, c ∈ SECRET_KEY_CHARS.data) :
    ∃ s, sectionGet (ensureSecret secs1 random_secret_key) "SERVER_CONFIG" "SECRET_KEY"
        = some s ∧
      ¬(s = "") ∧
      pyIn SECRET_KEY_PLACEHOLDER s = false ∧
      (sectionGet secs1 "SERVER_CONFIG" "SECRET_KEY" = some s ∨ s.length = 50) ∧
      (∀ (validate : String → Except PyErr ConfigDict) (CONFIG : ConfigDict),
        validate (serializeSections (ensureSecret secs1 random_secret_key))
          = Except.ok CONFIG →
        (write_config_file assignments fs validate random_secret_key).1.config_file
          = some (serializeSections (ensureSecret secs1 random_secret_key))) := by
  have hne : ¬(random_secret_key = "") := by
    intro h
    rw [h] at hlen
    exact absurd hlen (by decide)
  have hpyin : pyIn SECRET_KEY_PLACEHOLDER random_secret_key = false := by
    by_contra hc
    rw [Bool.not_eq_false] at hc
    have hmem := hasSubstr_mem hc ' ' (by decide)
    exact absurd (hchars ' ' hmem) (by decide)
  have hwrite : ∀ (validate : String → Except PyErr ConfigDict) (CONFIG : ConfigDict),
      validate (serializeSections (ensureSecret secs1 random_secret_key))
        = Except.ok CONFIG →
      (write_config_file assignments fs validate random_secret_key).1.config_file
        = some (serializeSections (ensureSecret secs1 random_secret_key)) := by
    intro validate CONFIG hv
    simp only [write_config_file, happly, hv]
  cases hsg : sectionGet secs1 "SERVER_CONFIG" "SECRET_KEY" with
  | none =>
    have hens : sectionGet (ensureSecret secs1 random_secret_key)
        "SERVER_CONFIG" "SECRET_KEY" = some random_secret_key := by
      simp only [ensureSecret, hsg]
      cases hsf : secFind secs1 "SERVER_CONFIG" with
      | some opts =>
        simp only [hsf, if_true]
        exact sectionGet_setSectionOption hsf "SECRET_KEY" random_secret_key
      | none =>
        simp only [hsf, if_true]
        unfold sectionGet
        rw [secFind_append_left_none hsf]
        simp [secFind, List.find?, sget]
    exact ⟨random_secret_key, hens, hne, hpyin, Or.inr hlen, hwrite⟩
  | some s =>
    by_cases hneed : (s == "" || pyIn SECRET_KEY_PLACEHOLDER s) = true
    · have hsf : ∃ opts, secFind secs1 "SERVER_CONFIG" = some opts := by
        unfold sectionGet at hsg
        cases hsf' : secFind secs1 "SERVER_CONFIG" with
        | none => rw [hsf'] at hsg; simp at hsg
        | some opts => exact ⟨opts, rfl⟩
      obtain ⟨opts, hopts⟩ := hsf
      have hens : sectionGet (ensureSecret secs1 random_secret_key)
          "SERVER_CONFIG" "SECRET_KEY" = some random_secret_key := by
        simp only [ensureSecret, hsg, hneed, hopts, if_true]
        exact sectionGet_setSectionOption hopts "SECRET_KEY" random_secret_key
      exact ⟨random_secret_key, hens, hne, hpyin, Or.inr hlen, hwrite⟩
    · have hneed' : (s == "" || pyIn SECRET_KEY_PLACEHOLDER s) = false := by
        simpa using hneed
      have hens : ensureSecret secs1 random_secret_key = secs1 := by
        simp only [ensureSecret, hsg, hneed']
        rfl
      have hsne : ¬(s = "") := by
        intro h
        rw [h] at hneed'
        simp at hneed'
      have hpy : pyIn SECRET_KEY_PLACEHOLDER s = false :=
        (Bool.or_eq_false_iff.mp hneed').2
      exact ⟨s, by rw [hens]; exact hsg, hsne, hpy, Or.inl rfl, hwrite⟩

/-- A 50-character draw over the generator's alphabet, for the C6 witness. -/
def c6secret : String := "abcdefghijklmnopqrstuvwxyz0123456789-_+!.abcdefghi"

/-- C6 witness: writing no assignments to a file with no `SERVER_CONFIG`
section injects the fresh 50-character secret, which is non-empty,
placeholder-free, and present in the persisted file on success. -/
theorem C6_secret_key_witness :
    ∃ s, sectionGet (ensureSecret [] c6secret) "SERVER_CONFIG" "SECRET_KEY" = some s ∧
      ¬(s = "") ∧
      pyIn SECRET_KEY_PLACEHOLDER s = false ∧
      (sectionGet ([] : Sections) "SERVER_CONFIG" "SECRET_KEY" = some s ∨ s.length = 50) ∧
      (∀ (validate : String → Except PyErr ConfigDict) (CONFIG : ConfigDict),
        validate (serializeSections (ensureSecret [] c6secret)) = Except.ok CONFIG →
        (write_config_file [] { config_file := some "", bak_file := Option.none }
            validate c6secret).1.config_file
          = some (serializeSections (ensureSecret [] c6secret))) :=
  C6_secret_key { config_file := some "", bak_file := Option.none } [] c6secret [] rfl
    (by decide) (by decide)

end ABox
